import Mathlib

/-
Verification development for excel_to_calendar.py: a shallow embedding of the
row-to-event resolution pipeline (df_cal_format, linked_calendars, format_date,
create_new_event) with theorems about its claimed behavior.

Spreadsheet cells are typed values or blank (pandas NaN); blank is modelled as
`none`.  Python dicts with string keys are modelled extensionally as functions
`String → Option String`.  The formatting applied by str(date) and
datetime.isoformat() is modelled by explicit string builders, and format_date
is split into the structured resolution (format_date) composed with the dict
rendering (format_date_wire), mirroring the source which builds the datetimes
and renders them inline in its return expressions.
-/

namespace ExcelCal

/-- A calendar date, as carried by a date-typed cell: the (year, month, day)
components of the pandas Timestamp that the source reads via .year/.month/.day
and .date(). -/
structure Date where
  year : Nat
  month : Nat
  day : Nat
deriving DecidableEq, Repr

/-- A time-of-day cell (datetime.time): hour, minute, second.  The source only
ever reads .hour and .minute. -/
structure Time where
  hour : Nat
  minute : Nat
  second : Nat
deriving DecidableEq, Repr

/-- A naive datetime as built by dt.datetime(year, month, day, hour, minute)
(second and microsecond default to 0 and stay 0 everywhere in the source). -/
structure DateTime where
  year : Nat
  month : Nat
  day : Nat
  hour : Nat
  minute : Nat
deriving DecidableEq, Repr

/-- Gregorian leap-year rule, as implemented by Python's datetime module. -/
def isLeapYear (y : Nat) : Bool :=
  (y % 4 == 0 && y % 100 != 0) || y % 400 == 0

/-- Number of days in a month of the proleptic Gregorian calendar. -/
def daysInMonth (y m : Nat) : Nat :=
  if m == 2 then (if isLeapYear y then 29 else 28)
  else if m == 4 || m == 6 || m == 9 || m == 11 then 30
  else 31

/-- The day after a given date (with month and year rollover). -/
def Date.next (d : Date) : Date :=
  if d.day < daysInMonth d.year d.month then ⟨d.year, d.month, d.day + 1⟩
  else if d.month < 12 then ⟨d.year, d.month + 1, 1⟩
  else ⟨d.year + 1, 1, 1⟩

/-- Embedding of `start_datetime + dt.timedelta(hours=1)` for datetimes whose
hour field is below 24 (every datetime.time satisfies hour < 24): add one to
the hour, rolling into the next calendar day past 23. -/
def DateTime.addOneHour (x : DateTime) : DateTime :=
  if x.hour + 1 < 24 then ⟨x.year, x.month, x.day, x.hour + 1, x.minute⟩
  else
    let d := Date.next ⟨x.year, x.month, x.day⟩
    ⟨d.year, d.month, d.day, x.hour + 1 - 24, x.minute⟩

/-- Two-digit zero padding used by ISO date/time rendering. -/
def pad2 (n : Nat) : String :=
  if n < 10 then "0" ++ toString n else toString n

/-- Four-digit zero padding used by ISO date rendering for the year. -/
def pad4 (n : Nat) : String :=
  if n < 10 then "000" ++ toString n
  else if n < 100 then "00" ++ toString n
  else if n < 1000 then "0" ++ toString n
  else toString n

/-- Embedding of `str(d)` for a datetime.date: the ISO string YYYY-MM-DD. -/
def Date.toIso (d : Date) : String :=
  pad4 d.year ++ "-" ++ pad2 d.month ++ "-" ++ pad2 d.day

/-- Embedding of datetime.isoformat() for a datetime with zero seconds and
microseconds: YYYY-MM-DDTHH:MM:SS (microseconds are omitted when zero, the
seconds field is always printed). -/
def DateTime.isoformat (x : DateTime) : String :=
  Date.toIso ⟨x.year, x.month, x.day⟩ ++ "T" ++ pad2 x.hour ++ ":" ++ pad2 x.minute ++ ":00"

/-- One spreadsheet row as loaded by xlsx_to_df: each cell is a typed value or
blank (pandas NaN), modelled as an Option. -/
structure RawRow where
  summary : Option String
  description : Option String
  startDate : Option Date
  startTime : Option Time
  endDate : Option Date
  endTime : Option Time
  startTimeZone : Option String
  endTimeZone : Option String
  calendarName : Option String
deriving DecidableEq, Repr

/-- A row after the fillna defaulting and the Calendar Name to id lookup of
df_cal_format.  The fields filled by fillna are plain strings; the date/time
cells stay optional, and summary and the looked-up id may still be blank. -/
structure NormalizedRow where
  summary : Option String
  description : String
  startDate : Option Date
  startTime : Option Time
  endDate : Option Date
  endTime : Option Time
  startTimeZone : String
  endTimeZone : String
  calendarName : String
  id : Option String
deriving DecidableEq, Repr

/-- One entry of service.calendarList().list(): display name (the `summary`
key), opaque id, and the user's access role on that calendar. -/
structure CalEntry where
  summary : String
  id : String
  accessRole : String
deriving DecidableEq, Repr

/-- A Python dict with string keys and string values, modelled extensionally
as the lookup function it induces. -/
def Dict : Type := String → Option String

/-- The empty dict. -/
def Dict.empty : Dict := fun _ => none

/-- Keyed assignment `d[k] = v`: later assignments overwrite earlier ones. -/
def Dict.insert (d : Dict) (k v : String) : Dict :=
  fun x => if x = k then some v else d x

/-- A dict built from a list of key/value pairs in order, as a Python dict
comprehension does (a repeated key keeps the last value). -/
def dictOfPairs (l : List (String × String)) : Dict :=
  l.foldl (fun d p => d.insert p.1 p.2) Dict.empty

/-- Embedding of linked_calendars(service, can_edit=True): the name-to-id dict
over the calendars whose accessRole is owner or writer. -/
def linked_calendars (cals : List CalEntry) : Dict :=
  dictOfPairs ((cals.filter fun c => c.accessRole == "owner" || c.accessRole == "writer").map
    fun c => (c.summary, c.id))

/-- The calendar table df_cal_format actually uses: linked_calendars with the
entry "Primary" -> "primary" assigned on top (source line 115), overwriting
any same-named entry fetched from the service. -/
def calendarTable (cals : List CalEntry) : Dict :=
  (linked_calendars cals).insert "Primary" "primary"

/-- Per-row embedding of the defaulting and lookup part of df_cal_format
(source lines 106-116): blank timezones become the account default, blank
description becomes "", blank Calendar Name becomes "Primary", and the id
column is the dict lookup of the (defaulted) Calendar Name, blank when the
name has no entry (pandas .map yields NaN on a missing key).  This stage is a
total function: it never fails. -/
def normalizeRow (tz : String) (calendars : Dict) (r : RawRow) : NormalizedRow :=
  let calName := r.calendarName.getD "Primary"
  { summary := r.summary
    description := r.description.getD ""
    startDate := r.startDate
    startTime := r.startTime
    endDate := r.endDate
    endTime := r.endTime
    startTimeZone := r.startTimeZone.getD tz
    endTimeZone := r.endTimeZone.getD tz
    calendarName := calName
    id := calendars calName }

/-- A resolved start or end value as produced by format_date: either the
all-day form (a bare date) or the timed form (a naive datetime plus a
timezone string carried as metadata). -/
inductive GTime where
  | date (d : Date)
  | dateTime (t : DateTime) (tz : String)
deriving DecidableEq, Repr

/-- Embedding of format_date (source lines 144-180), returning the structured
start/end pair.  Branch order follows the source: blank Start Date raises;
blank Start Time gives the all-day pair (end defaulting to the start date);
otherwise the timed pair is built from year/month/day and hour/minute, the
end defaulting to start plus one hour when End Time is blank, and to Start
Date's day when End Date is blank. -/
def format_date (row : NormalizedRow) : Except String (GTime × GTime) :=
  match row.startDate with
  | none => .error "Event must contain a Start Date"
  | some sd =>
    match row.startTime with
    | none =>
      let start_date := sd
      let end_date :=
        match row.endDate with
        | none => start_date
        | some ed => ed
      .ok (.date start_date, .date end_date)
    | some t =>
      let start_datetime : DateTime := ⟨sd.year, sd.month, sd.day, t.hour, t.minute⟩
      let end_datetime : DateTime :=
        match row.endTime with
        | none => start_datetime.addOneHour
        | some t2 =>
          match row.endDate with
          | none => ⟨sd.year, sd.month, sd.day, t2.hour, t2.minute⟩
          | some d2 => ⟨d2.year, d2.month, d2.day, t2.hour, t2.minute⟩
      .ok (.dateTime start_datetime row.startTimeZone,
           .dateTime end_datetime row.endTimeZone)

/-- Rendering of a GTime as the key/value dict the source returns: the all-day
form is the single-key dict with key "date", the timed form the two-key dict
with keys "dateTime" and "timeZone". -/
def GTime.serialize : GTime → List (String × String)
  | .date d => [("date", d.toIso)]
  | .dateTime t tz => [("dateTime", t.isoformat), ("timeZone", tz)]

/-- format_date composed with the dict rendering: exactly the pair of dicts
the Python function returns. -/
def format_date_wire (row : NormalizedRow) :
    Except String (List (String × String) × List (String × String)) :=
  (format_date row).map fun p => (p.1.serialize, p.2.serialize)

/-- The body handed to service.events().insert by create_new_event: summary,
description, and the rendered start and stop dicts (the source's "end" key). -/
structure EventBody where
  summary : Option String
  description : String
  start : List (String × String)
  stop : List (String × String)
deriving DecidableEq, Repr

/-- Embedding of create_new_event up to the external call (source lines
183-187): the calendarId and body handed to service.events().insert.  No
local check is performed; a blank id is passed through to the service. -/
def create_new_event_request (n : NormalizedRow) (s e : GTime) :
    Option String × EventBody :=
  (n.id, { summary := n.summary
           description := n.description
           start := s.serialize
           stop := e.serialize })

/-- A time with the same hour and minute but a replaced seconds component. -/
def Time.withSecond (t : Time) (s : Nat) : Time := ⟨t.hour, t.minute, s⟩

/-- The row with the seconds components of its Start Time and End Time cells
replaced (blank cells stay blank). -/
def NormalizedRow.withSeconds (row : NormalizedRow) (s1 s2 : Nat) : NormalizedRow :=
  { row with startTime := row.startTime.map (fun t => t.withSecond s1),
             endTime := row.endTime.map (fun t => t.withSecond s2) }

/-- C1: for every row whose Start Date cell is blank, format_date fails with
the missing-required-field error, regardless of the values of every other
field (Start Time, End Date, End Time, timezones, Calendar Name). -/
theorem format_date_blank_start_fails (row : NormalizedRow)
    (h : row.startDate = none) :
    format_date row = .error "Event must contain a Start Date" := by
  simp [format_date, h]

def rowC1 : NormalizedRow :=
  { summary := some "Standup"
    description := "daily"
    startDate := none
    startTime := some ⟨9, 0, 0⟩
    endDate := some ⟨2024, 3, 2⟩
    endTime := some ⟨10, 0, 0⟩
    startTimeZone := "America/Chicago"
    endTimeZone := "America/New_York"
    calendarName := "Work"
    id := some "work@example.com" }

/-- C1 witness: a concrete row with every other field populated still fails
on its blank Start Date. -/
theorem format_date_blank_start_fails_witness :
    format_date rowC1 = .error "Event must contain a Start Date" :=
  format_date_blank_start_fails rowC1 rfl

/-- C2: with Start Date present and Start Time blank the result is the
all-day pair: the end date is End Date when present and the start date when
End Date is blank, and both sides are bare dates carrying no time-of-day and
no timezone. -/
theorem format_date_all_day (row : NormalizedRow) (sd : Date)
    (h1 : row.startDate = some sd) (h2 : row.startTime = none) :
    format_date row = .ok (.date sd, .date (row.endDate.getD sd)) := by
  cases hed : row.endDate <;> simp [format_date, h1, h2, hed]

def rowC2 : NormalizedRow :=
  { summary := some "Trip"
    description := ""
    startDate := some ⟨2024, 3, 1⟩
    startTime := none
    endDate := some ⟨2024, 3, 3⟩
    endTime := none
    startTimeZone := "America/Chicago"
    endTimeZone := "America/Chicago"
    calendarName := "Primary"
    id := some "primary" }

/-- C2 witness: the multi-day all-day scenario evaluates to the bare date
pair 2024-03-01 / 2024-03-03. -/
theorem format_date_all_day_witness :
    format_date rowC2 = .ok (.date ⟨2024, 3, 1⟩, .date ⟨2024, 3, 3⟩) :=
  format_date_all_day rowC2 ⟨2024, 3, 1⟩ rfl rfl

/-- C5: the calendar table maps the name "Primary" to the sentinel id
"primary" for every service directory, because the injected entry is
assigned after the fetched table is built and overwrites any entry the
service returned for a calendar literally named "Primary". -/
theorem calendarTable_primary (cals : List CalEntry) :
    calendarTable cals "Primary" = some "primary" := by
  simp [calendarTable, Dict.insert]

/-- C9: when the (defaulted) Calendar Name has no exact match in the calendar
table, normalization still succeeds (it is a total function) and puts a blank
id on the row, and that blank id is what create_new_event hands to the
external submission call, where the first observable failure occurs. -/
theorem unresolved_calendar_blank_id (tz : String) (cals : List CalEntry)
    (r : RawRow) (s e : GTime)
    (h : calendarTable cals (r.calendarName.getD "Primary") = none) :
    (normalizeRow tz (calendarTable cals) r).id = none ∧
    (create_new_event_request (normalizeRow tz (calendarTable cals) r) s e).1 = none := by
  constructor
  · simpa [normalizeRow] using h
  · simpa [create_new_event_request, normalizeRow] using h

def rawC9 : RawRow :=
  { summary := some "Sync"
    description := none
    startDate := some ⟨2024, 3, 1⟩
    startTime := none
    endDate := none
    endTime := none
    startTimeZone := none
    endTimeZone := none
    calendarName := some "Book Club" }

def calsC9 : List CalEntry :=
  [⟨"Team", "team@example.com", "owner"⟩, ⟨"Holidays", "hol@example.com", "reader"⟩]

/-- C9 witness: with a directory holding no "Book Club" entry, the row comes
out of normalization with a blank id and the submission request carries that
blank id. -/
theorem unresolved_calendar_blank_id_witness :
    (normalizeRow "Etc/UTC" (calendarTable calsC9) rawC9).id = none ∧
    (create_new_event_request (normalizeRow "Etc/UTC" (calendarTable calsC9) rawC9)
      (GTime.date ⟨2024, 3, 1⟩) (GTime.date ⟨2024, 3, 1⟩)).1 = none :=
  unresolved_calendar_blank_id "Etc/UTC" calsC9 rawC9
    (GTime.date ⟨2024, 3, 1⟩) (GTime.date ⟨2024, 3, 1⟩) rfl

/-- C10: format_date reads only the hour and minute components of the Start
Time and End Time cells; its result is unchanged under any replacement of
their seconds components. -/
theorem format_date_ignores_seconds (row : NormalizedRow) (a b c d : Nat) :
    format_date (row.withSeconds a b) = format_date (row.withSeconds c d) := by
  cases hsd : row.startDate <;> cases hst : row.startTime <;>
    cases het : row.endTime <;> cases hed : row.endDate <;>
      simp [format_date, NormalizedRow.withSeconds, Time.withSecond, hsd, hst, het, hed]

def rowC3cex : NormalizedRow :=
  { summary := some "Late call"
    description := ""
    startDate := some ⟨2024, 3, 1⟩
    startTime := some ⟨23, 30, 0⟩
    endDate := some ⟨2024, 3, 5⟩
    endTime := some ⟨0, 30, 0⟩
    startTimeZone := "America/Chicago"
    endTimeZone := "America/Chicago"
    calendarName := "Primary"
    id := some "primary" }

/-- C3 counterexample: with Start Time 23:30 and End Time blank, the default
one-hour end lands at 00:30 of the next calendar day 2024-03-02, not on
Start Date's day 2024-03-01, so the same-calendar-day part of the claim is
false. -/
theorem format_date_default_duration_cex :
    format_date { rowC3cex with endTime := none } = .ok
      (.dateTime ⟨2024, 3, 1, 23, 30⟩ "America/Chicago",
       .dateTime ⟨2024, 3, 2, 0, 30⟩ "America/Chicago")
    ∧ (⟨2024, 3, 2⟩ : Date) ≠ (⟨2024, 3, 1⟩ : Date) :=
  ⟨rfl, by decide⟩

/-- C3 amended: with Start Time present and End Time blank, the end instant
is exactly the start instant plus one hour under datetime arithmetic, any
End Date value is ignored, and the end stays on Start Date's calendar day
whenever the start hour is below 23 (at hour 23 the hour addition rolls the
end onto the next day). -/
theorem format_date_default_duration (row : NormalizedRow) (sd : Date) (t : Time)
    (h1 : row.startDate = some sd) (h2 : row.startTime = some t)
    (h3 : row.endTime = none) :
    format_date row = .ok
      (.dateTime ⟨sd.year, sd.month, sd.day, t.hour, t.minute⟩ row.startTimeZone,
       .dateTime (DateTime.addOneHour ⟨sd.year, sd.month, sd.day, t.hour, t.minute⟩)
         row.endTimeZone)
    ∧ (t.hour < 23 →
       DateTime.addOneHour ⟨sd.year, sd.month, sd.day, t.hour, t.minute⟩ =
         ⟨sd.year, sd.month, sd.day, t.hour + 1, t.minute⟩) := by
  constructor
  · simp [format_date, h1, h2, h3]
  · intro hh
    have hlt : t.hour + 1 < 24 := by omega
    simp [DateTime.addOneHour, hlt]

def rowC3w : NormalizedRow :=
  { summary := some "Lunch"
    description := ""
    startDate := some ⟨2024, 3, 1⟩
    startTime := some ⟨14, 0, 0⟩
    endDate := some ⟨2024, 12, 25⟩
    endTime := none
    startTimeZone := "Etc/UTC"
    endTimeZone := "Etc/UTC"
    calendarName := "Primary"
    id := some "primary" }

/-- C3 witness: a 14:00 start with a (ignored) End Date gives a 15:00 end on
the same day. -/
theorem format_date_default_duration_witness :
    (format_date rowC3w = .ok
      (.dateTime ⟨2024, 3, 1, 14, 0⟩ "Etc/UTC",
       .dateTime (DateTime.addOneHour ⟨2024, 3, 1, 14, 0⟩) "Etc/UTC")
    ∧ (14 < 23 →
       DateTime.addOneHour ⟨2024, 3, 1, 14, 0⟩ = ⟨2024, 3, 1, 15, 0⟩)) :=
  format_date_default_duration rowC3w ⟨2024, 3, 1⟩ ⟨14, 0, 0⟩ rfl rfl rfl

/-- C4: with Start Time and End Time present and End Date blank, the end
instant combines Start Date's calendar day with End Time; no ordering check
is made, so the end may precede the start. -/
theorem format_date_end_same_day (row : NormalizedRow) (sd : Date) (t1 t2 : Time)
    (h1 : row.startDate = some sd) (h2 : row.startTime = some t1)
    (h3 : row.endTime = some t2) (h4 : row.endDate = none) :
    format_date row = .ok
      (.dateTime ⟨sd.year, sd.month, sd.day, t1.hour, t1.minute⟩ row.startTimeZone,
       .dateTime ⟨sd.year, sd.month, sd.day, t2.hour, t2.minute⟩ row.endTimeZone) := by
  simp [format_date, h1, h2, h3, h4]

def rowC4 : NormalizedRow :=
  { summary := some "Overnight"
    description := ""
    startDate := some ⟨2024, 3, 1⟩
    startTime := some ⟨23, 30, 0⟩
    endDate := none
    endTime := some ⟨0, 30, 0⟩
    startTimeZone := "America/Chicago"
    endTimeZone := "America/Chicago"
    calendarName := "Primary"
    id := some "primary" }

/-- C4 witness: the 23:30 / 00:30 scenario keeps the end on Start Date's
day, producing an end that numerically precedes the start. -/
theorem format_date_end_same_day_witness :
    format_date rowC4 = .ok
      (.dateTime ⟨2024, 3, 1, 23, 30⟩ "America/Chicago",
       .dateTime ⟨2024, 3, 1, 0, 30⟩ "America/Chicago") :=
  format_date_end_same_day rowC4 ⟨2024, 3, 1⟩ ⟨23, 30, 0⟩ ⟨0, 30, 0⟩ rfl rfl rfl rfl

/-- C6: for a fully specified timed row, resolution combines the input cells
componentwise with no timezone conversion, and the serialized start and end
reproduce exactly the input wall-clock date, hour and minute, with the
declared timezone strings attached unchanged. -/
theorem format_date_roundtrip (row : NormalizedRow) (sd ed : Date) (st et : Time)
    (h1 : row.startDate = some sd) (h2 : row.startTime = some st)
    (h3 : row.endDate = some ed) (h4 : row.endTime = some et) :
    format_date row = .ok
      (.dateTime ⟨sd.year, sd.month, sd.day, st.hour, st.minute⟩ row.startTimeZone,
       .dateTime ⟨ed.year, ed.month, ed.day, et.hour, et.minute⟩ row.endTimeZone)
    ∧ format_date_wire row = .ok
      ([("dateTime", DateTime.isoformat ⟨sd.year, sd.month, sd.day, st.hour, st.minute⟩),
        ("timeZone", row.startTimeZone)],
       [("dateTime", DateTime.isoformat ⟨ed.year, ed.month, ed.day, et.hour, et.minute⟩),
        ("timeZone", row.endTimeZone)]) := by
  constructor <;>
    simp [format_date, format_date_wire, h1, h2, h3, h4, GTime.serialize,
      Except.map]

def rowC6 : NormalizedRow :=
  { summary := some "Flight"
    description := ""
    startDate := some ⟨2024, 3, 1⟩
    startTime := some ⟨14, 5, 0⟩
    endDate := some ⟨2024, 3, 2⟩
    endTime := some ⟨9, 30, 0⟩
    startTimeZone := "America/New_York"
    endTimeZone := "America/Los_Angeles"
    calendarName := "Primary"
    id := some "primary" }

/-- C6 witness: the fully specified row serializes to the exact input
wall-clock components and timezones. -/
theorem format_date_roundtrip_witness :
    (format_date rowC6 = .ok
      (.dateTime ⟨2024, 3, 1, 14, 5⟩ "America/New_York",
       .dateTime ⟨2024, 3, 2, 9, 30⟩ "America/Los_Angeles")
    ∧ format_date_wire rowC6 = .ok
      ([("dateTime", "2024-03-01T14:05:00"), ("timeZone", "America/New_York")],
       [("dateTime", "2024-03-02T09:30:00"), ("timeZone", "America/Los_Angeles")])) :=
  format_date_roundtrip rowC6 ⟨2024, 3, 1⟩ ⟨2024, 3, 2⟩ ⟨14, 5, 0⟩ ⟨9, 30, 0⟩
    rfl rfl rfl rfl

/-- Shape of a successful resolution before rendering: both sides all-day or
both sides timed. -/
theorem format_date_shape (row : NormalizedRow) (s e : GTime)
    (h : format_date row = .ok (s, e)) :
    (∃ d1 d2 : Date, s = .date d1 ∧ e = .date d2) ∨
    (∃ t1 t2 : DateTime, ∃ z1 z2 : String,
      s = .dateTime t1 z1 ∧ e = .dateTime t2 z2) := by
  cases hsd : row.startDate with
  | none => simp [format_date, hsd] at h
  | some sd =>
    cases hst : row.startTime with
    | none =>
      left
      simp [format_date, hsd, hst] at h
      exact ⟨sd, _, h.1.symm, h.2.symm⟩
    | some t =>
      right
      simp [format_date, hsd, hst] at h
      exact ⟨_, _, _, _, h.1.symm, h.2.symm⟩

/-- C7: every successfully resolved row serializes in exactly one of the two
wire shapes: both sides the single-key date dict, or both sides the two-key
dateTime/timeZone dict. -/
theorem format_date_wire_shape (row : NormalizedRow)
    (ws we : List (String × String))
    (h : format_date_wire row = .ok (ws, we)) :
    (∃ d1 d2 : Date, ws = [("date", d1.toIso)] ∧ we = [("date", d2.toIso)]) ∨
    (∃ t1 t2 : DateTime, ∃ z1 z2 : String,
      ws = [("dateTime", t1.isoformat), ("timeZone", z1)] ∧
      we = [("dateTime", t2.isoformat), ("timeZone", z2)]) := by
  cases hfd : format_date row with
  | error msg =>
    unfold format_date_wire at h
    rw [hfd] at h
    simp [Except.map] at h
  | ok p =>
    have hp : format_date row = .ok (p.1, p.2) := by rw [hfd]
    unfold format_date_wire at h
    rw [hfd] at h
    simp only [Except.map, Except.ok.injEq, Prod.mk.injEq] at h
    obtain ⟨hw, hwe⟩ := h
    rcases format_date_shape row p.1 p.2 hp with
      ⟨d1, d2, hs, he⟩ | ⟨t1, t2, z1, z2, hs, he⟩
    · exact Or.inl ⟨d1, d2, by rw [← hw, hs]; exact rfl,
        by rw [← hwe, he]; exact rfl⟩
    · exact Or.inr ⟨t1, t2, z1, z2, by rw [← hw, hs]; exact rfl,
        by rw [← hwe, he]; exact rfl⟩

def rowC7 : NormalizedRow :=
  { summary := some "Holiday"
    description := ""
    startDate := some ⟨2024, 3, 1⟩
    startTime := none
    endDate := none
    endTime := none
    startTimeZone := "Etc/UTC"
    endTimeZone := "Etc/UTC"
    calendarName := "Primary"
    id := some "primary" }

/-- C7 witness: a single-day all-day row serializes with both sides in the
date shape. -/
theorem format_date_wire_shape_witness :
    (∃ d1 d2 : Date,
      [("date", Date.toIso ⟨2024, 3, 1⟩)] = [("date", d1.toIso)] ∧
      [("date", Date.toIso ⟨2024, 3, 1⟩)] = [("date", d2.toIso)]) ∨
    (∃ t1 t2 : DateTime, ∃ z1 z2 : String,
      [("date", Date.toIso ⟨2024, 3, 1⟩)] = [("dateTime", t1.isoformat), ("timeZone", z1)] ∧
      [("date", Date.toIso ⟨2024, 3, 1⟩)] = [("dateTime", t2.isoformat), ("timeZone", z2)]) :=
  format_date_wire_shape rowC7 [("date", Date.toIso ⟨2024, 3, 1⟩)]
    [("date", Date.toIso ⟨2024, 3, 1⟩)] rfl

def rawC8 : RawRow :=
  { summary := none
    description := none
    startDate := some ⟨2024, 3, 1⟩
    startTime := none
    endDate := none
    endTime := none
    startTimeZone := none
    endTimeZone := none
    calendarName := none }

/-- C8 counterexample: df_cal_format fills timezones, description and
Calendar Name but never fills Summary, so a row entering with a blank
Summary leaves normalization with its summary still blank. -/
theorem normalizeRow_summary_blank_cex :
    (normalizeRow "Etc/UTC" (calendarTable []) rawC8).summary = none := rfl

/-- C8 amended: normalization is a total function (it never fails) and
default-fills description (blank becomes the empty string), both timezones
(blank becomes the account default) and Calendar Name (blank becomes
"Primary"), making those fields non-blank by type; Summary is passed
through unchanged and may remain blank. -/
theorem normalizeRow_defaults (tz : String) (calendars : Dict) (r : RawRow) :
    (normalizeRow tz calendars r).description = r.description.getD "" ∧
    (normalizeRow tz calendars r).startTimeZone = r.startTimeZone.getD tz ∧
    (normalizeRow tz calendars r).endTimeZone = r.endTimeZone.getD tz ∧
    (normalizeRow tz calendars r).calendarName = r.calendarName.getD "Primary" ∧
    (normalizeRow tz calendars r).summary = r.summary :=
  ⟨rfl, rfl, rfl, rfl, rfl⟩

end ExcelCal
